import Mathlib

/- Verification of the DESI spectra tutorial notebook
   (simulating-desi-spectra.ipynb). The file gives a shallow embedding of
   the notebook logic: the velocity-offset comparison, the IPython shell
   escape used to run the external tools, the FITS spectrum file writing,
   the quickspectra and rrdesi command constructions, and a spec-modelled
   template generator. Theorems about these definitions settle the
   specified properties. The spec refers to the quickspectra executable by
   the interface name "simulate" and to the rrdesi executable by the
   interface name "fit-redshifts"; the embedding keeps the executable
   names of the source. -/

namespace DesiSim

/-- Embeds the velocity-offset computation of the comparison cells:
dv = 3e5*(zbest Z - meta REDSHIFT)/(1 + meta REDSHIFT), applied
elementwise to the fitted and true redshift columns. The Python literal
3e5 denotes exactly 300000. Values are modelled as exact rationals. -/
def dvTable (zfit ztrue : List ℚ) : List ℚ :=
  List.zipWith (fun zf zt => 300000 * (zf - zt) / (1 + zt)) zfit ztrue

/-- Outcome of a notebook cell that shells out through the IPython bang
escape: the exit status of the subprocess (visible only in the printed
output) and whether the cell raised an error, which is what would halt a
run-all execution of the notebook. -/
structure ShellOutcome where
  exitCode : Nat
  raised : Bool

/-- Embeds the IPython shell escape cells that run quickspectra and
rrdesi: the subprocess runs to completion, its output is printed, and its
exit status is discarded. Unlike subprocess.check_call, the IPython shell
escape performs no exit-status check, so the cell never raises, whatever
the exit code of the command. -/
def shellEscape (_cmd : List String) (exitCode : Nat) : ShellOutcome :=
  { exitCode := exitCode, raised := false }

/-- Observing-condition flag values for quickspectra, as the strings that
are interpolated into the command: moon illumination fraction, moon
altitude, moon separation and airmass. -/
structure ObsConditions where
  moonfrac : String
  moonalt : String
  moonsep : String
  airmass : String

/-- Renders an argument vector as the space-joined command string; this is
the word joining that is inverse to the splitting the shell performs on
the formatted command string. -/
def renderCmd : List String → String
  | [] => ""
  | [x] => x
  | x :: xs => x ++ " " ++ renderCmd xs

/-- Embeds the dark-time simulation command string built by str.format in
the first quickspectra cell. -/
def simulateCmdStr (infile outfile : String) : String :=
  "quickspectra -i " ++ infile ++ " -o " ++ outfile

/-- Embeds the moon-up simulation command string built by str.format in
the resimulation cell, whose format literal fixes moonfrac 0.9, moonalt
70, moonsep 20 and airmass 1.3. -/
def simulateMoonCmdStr (infile outfile : String) : String :=
  "quickspectra -i " ++ infile ++ " -o " ++ outfile ++
    " --moonfrac 0.9 --moonalt 70 --moonsep 20 --airmass 1.3"

/-- The simulation command as the argument vector the shell derives from
the formatted command string. A none condition embeds the dark-time cell;
a some condition embeds the moon cell with its four flag values. -/
def simulateCmd (infile outfile : String) (cond : Option ObsConditions) : List String :=
  match cond with
  | none => ["quickspectra", "-i", infile, "-o", outfile]
  | some c => ["quickspectra", "-i", infile, "-o", outfile,
      "--moonfrac", c.moonfrac, "--moonalt", c.moonalt,
      "--moonsep", c.moonsep, "--airmass", c.airmass]

/-- Embeds the base redshift-fitting command string of the rrdesi cells,
built by str.format. -/
def rrdesiCmdStr (specfile zfile : String) : String :=
  "rrdesi " ++ specfile ++ " --zbest " ++ zfile

/-- The srun batch-submission wrapper string of the rrdesi cells. -/
def srunStr : String :=
  "srun -A desi -N 1 -t 00:10:00 -C haswell --qos interactive"

/-- Embeds the full redshift-fitting command string: the base command,
and, when NERSC_HOST is present in the environment, the srun wrapper in
front and the flag mp 32 behind, exactly as the conditional in the rrdesi
cells builds it. -/
def fitCmdStr (specfile zfile : String) (nerscHost : Bool) : String :=
  let cmd := rrdesiCmdStr specfile zfile
  if nerscHost then srunStr ++ " " ++ cmd ++ " --mp 32" else cmd

/-- The base redshift-fitting command as an argument vector. -/
def rrdesiArgv (specfile zfile : String) : List String :=
  ["rrdesi", specfile, "--zbest", zfile]

/-- The srun batch-submission wrapper as an argument vector. -/
def srunArgv : List String :=
  ["srun", "-A", "desi", "-N", "1", "-t", "00:10:00", "-C", "haswell", "--qos", "interactive"]

/-- The full redshift-fitting command as an argument vector, with the
NERSC_HOST presence test embedded as a Boolean. -/
def fitCmdArgv (specfile zfile : String) (nerscHost : Bool) : List String :=
  if nerscHost then srunArgv ++ rrdesiArgv specfile zfile ++ ["--mp", "32"]
  else rrdesiArgv specfile zfile

/-- The two header keywords the notebook sets on each image section:
EXTNAME, the section label, and BUNIT, the physical-unit label. -/
structure FitsHeader where
  extname : String
  bunit : String

/-- Image payload of a FITS section: the 1D wavelength grid or the 2D
flux table. FITS stores float64 values losslessly as raw IEEE bytes, so
the embedding keeps exact numeric values; round-trip identity of the
model corresponds to bit-identity of the file data. -/
inductive ImageData
  | oneD : List ℚ → ImageData
  | twoD : List (List ℚ) → ImageData

/-- One labeled image section of a FITS file. -/
structure HDUEntry where
  hdr : FitsHeader
  data : ImageData

/-- A FITS file as the notebook uses it: a sequence of labeled image
sections. -/
structure FitsFile where
  hdus : List HDUEntry

/-- File store with a writability predicate: files maps a path to its
content and writable says whether the path can be created or replaced. -/
structure FileStore where
  files : String → Option FitsFile
  writable : String → Bool

/-- Replace, or create, the file at a path of the store. -/
def setFile (fs : FileStore) (path : String) (f : FitsFile) : FileStore :=
  { files := fun q => if q = path then some f else fs.files q
    writable := fs.writable }

/-- Embeds fits.writeto with overwrite set to True, as called on the
wavelength grid: fails on an unwritable destination, else creates a file
holding one labeled image section, replacing any existing file at the
path. No validation relates the array to any other section or file. -/
def fitsWriteto (fs : FileStore) (path : String) (hdr : FitsHeader) (d : ImageData) :
    Except Unit FileStore :=
  if fs.writable path = true then
    Except.ok (setFile fs path ⟨[⟨hdr, d⟩]⟩)
  else Except.error ()

/-- Embeds fits.append, as called on the flux table: fails on an
unwritable destination, else appends one labeled image section to the
file at the path, creating the file when absent. As with fits.writeto, no
shape validation is performed. -/
def fitsAppend (fs : FileStore) (path : String) (hdr : FitsHeader) (d : ImageData) :
    Except Unit FileStore :=
  if fs.writable path = true then
    match fs.files path with
    | some f => Except.ok (setFile fs path ⟨f.hdus ++ [⟨hdr, d⟩]⟩)
    | none => Except.ok (setFile fs path ⟨[⟨hdr, d⟩]⟩)
  else Except.error ()

/-- The header the notebook sets before fits.writeto: EXTNAME WAVELENGTH,
BUNIT Angstrom. -/
def wavelengthHeader : FitsHeader :=
  { extname := "WAVELENGTH", bunit := "Angstrom" }

/-- The header the notebook sets before fits.append: EXTNAME FLUX and the
ASCII, FITS-standard unit string of the source. -/
def fluxHeader : FitsHeader :=
  { extname := "FLUX", bunit := "10^-17 erg/(s*cm^2*Angstrom)" }

/-- Embeds the spectrum-writing cell: fits.writeto of the wavelength grid
under the WAVELENGTH header with overwrite True, then fits.append of the
flux table under the FLUX header. -/
def writeSpectrumFile (fs : FileStore) (infile : String) (wave : List ℚ)
    (flux : List (List ℚ)) : Except Unit FileStore :=
  match fitsWriteto fs infile wavelengthHeader (ImageData.oneD wave) with
  | Except.error e => Except.error e
  | Except.ok fs1 => fitsAppend fs1 infile fluxHeader (ImageData.twoD flux)

/-- The file content the spectrum-writing cell produces: exactly the two
labeled sections. -/
def spectrumFitsFile (wave : List ℚ) (flux : List (List ℚ)) : FitsFile :=
  ⟨[⟨wavelengthHeader, ImageData.oneD wave⟩, ⟨fluxHeader, ImageData.twoD flux⟩]⟩

/-- Whether a write result signalled success. -/
def writeOk : Except Unit FileStore → Bool
  | Except.ok _ => true
  | Except.error _ => false

/-- The file found at a path after a write result: none when the write
failed or left no file there. -/
def resultFileAt (r : Except Unit FileStore) (path : String) : Option FitsFile :=
  match r with
  | Except.ok fs => fs.files path
  | Except.error _ => none

/-- Look up a section of a file by its EXTNAME label, as a reader of the
file does. -/
def sectionNamed (f : FitsFile) (name : String) : Option HDUEntry :=
  f.hdus.find? (fun h => h.hdr.extname == name)

/-- Read back the wavelength grid of a spectrum file by section label. -/
def readWavelength (f : FitsFile) : Option ImageData :=
  (sectionNamed f "WAVELENGTH").map HDUEntry.data

/-- Read back the flux table of a spectrum file by section label. -/
def readFlux (f : FitsFile) : Option ImageData :=
  (sectionNamed f "FLUX").map HDUEntry.data

/-- Column count of a flux table: the length of its first row. -/
def colCount (flux : List (List ℚ)) : Nat :=
  match flux with
  | [] => 0
  | r :: _ => r.length

/-- A store with no files in which every path is writable: the concrete
environment used by the closed theorems. -/
def emptyStore : FileStore :=
  { files := fun _ => none, writable := fun _ => true }

/-- The fixed enumerated set of object classes the template generators
cover: SIMQSO quasars and the other generator classes the notebook
names. -/
inductive ObjectClass
  | QSO
  | ELG
  | LRG
  | BGS
  | STD
  | MWS_STAR
  | STAR
  | WD

/-- Optional range constraints on magnitude and redshift, the optional
arguments of the generator the spec names. -/
structure RangeConstraints where
  magRange : Option (ℚ × ℚ)
  zRange : Option (ℚ × ℚ)

/-- One row of the class-independent metadata table: the unique object
identifier and the per-object scalar attributes. -/
structure MetaRow where
  targetid : Nat
  redshift : ℚ
  mag : ℚ
  objclass : ObjectClass

/-- One row of the class-specific metadata table, keyed by the same
object identifier. -/
structure ObjMetaRow where
  targetid : Nat
  lineStrength : ℚ

/-- The four outputs of the generator: flux table, wavelength grid and
the two metadata tables. -/
structure TemplateOutput where
  flux : List (List ℚ)
  wave : List ℚ
  meta : List MetaRow
  objmeta : List ObjMetaRow

/-- Lower end of an optional range, zero when the range is absent. -/
def rangeLow (r : Option (ℚ × ℚ)) : ℚ :=
  match r with
  | some p => p.1
  | none => 0

/-- The shared observed-frame wavelength grid of the modelled
generator. -/
def templateWave : List ℚ :=
  [3600, 5000, 7000, 9800]

/-- Modelled from the spec: the template generator, the make_templates
method of desisim.templates, is external library code absent from this
repository; the notebook only calls it. Per the spec it is a pure
function of the object class, the requested count and the optional
magnitude and redshift range constraints; it fails when the count is not
positive, and otherwise returns a flux table with count rows, the
wavelength grid, and the two metadata tables, each with count rows keyed
by identical identifiers in the same order. The spectral content of the
rows is outside the spec scope and is modelled by a fixed deterministic
function of class, constraints and row index. -/
def make_templates (c : ObjectClass) (nmodel : Nat) (rc : RangeConstraints) :
    Except String TemplateOutput :=
  if nmodel = 0 then Except.error "nmodel must be a positive integer"
  else
    let ids := List.range nmodel
    Except.ok
      { flux := ids.map (fun i : Nat => templateWave.map (fun w => w + (i : ℚ)))
        wave := templateWave
        meta := ids.map (fun i => ⟨i, rangeLow rc.zRange + i, rangeLow rc.magRange + i, c⟩)
        objmeta := ids.map (fun i => ⟨i, (i : ℚ)⟩) }

/-- Ambient state surrounding a generator invocation, used to express
that the generator has no side effects. -/
structure World where
  rngState : Nat
  scratchFiles : List String

/-- Modelled from the spec: invoking the generator inside an ambient
state. The spec declares the generator side-effect free, so the state
passes through unchanged and the result does not depend on it. -/
def make_templates_invoke (c : ObjectClass) (nmodel : Nat) (rc : RangeConstraints)
    (w : World) : Except String TemplateOutput × World :=
  (make_templates c nmodel rc, w)

/-- C1 counterexample: the comparison cells compute dv with the constant
3e5 km/s, not with the speed of light 299792.458 km/s. At z_true 1.0 and
z_fit 1.001 the code computes exactly 150 km/s, while the formula of the
claim, with c equal to 299792.458, yields 149.896229 km/s, a different
value. -/
theorem dv_constant_not_lightspeed :
    dvTable [1001 / 1000] [1] = [150]
    ∧ (299792458 / 1000 : ℚ) * (1001 / 1000 - 1) / (1 + 1) ≠ 150 := by
  constructor
  · show [(300000 : ℚ) * (1001 / 1000 - 1) / (1 + 1)] = [150]
    norm_num
  · norm_num

/-- C1 amended: the comparison cells compute, for every object, the
recession-velocity offset dv = c * (z_fit - z_true) / (1 + z_true) with
c the constant 3e5 km/s, an approximation of the speed of light, so that
for z_true 1.0 and z_fit 1.001 the computed dv is exactly 150 km/s. -/
theorem dv_formula (zfit ztrue : List ℚ) (i : Nat) (zf zt : ℚ)
    (h1 : zfit.get? i = some zf) (h2 : ztrue.get? i = some zt) :
    (dvTable zfit ztrue).get? i = some (300000 * (zf - zt) / (1 + zt))
    ∧ dvTable [1001 / 1000] [1] = [150] := by
  constructor
  · rw [dvTable, List.get?_zipWith_eq_some]
    exact ⟨zf, zt, h1, h2, rfl⟩
  · show [(300000 : ℚ) * (1001 / 1000 - 1) / (1 + 1)] = [150]
    norm_num

/-- Witness for the amended C1 theorem at the one-object tables with
z_true 1.0 and z_fit 1.001. -/
theorem dv_formula_witness :
    ([(1001 : ℚ) / 1000].get? 0 = some (1001 / 1000))
    ∧ ([(1 : ℚ)].get? 0 = some 1)
    ∧ ((dvTable [1001 / 1000] [1]).get? 0 = some (300000 * (1001 / 1000 - 1) / (1 + 1))
        ∧ dvTable [1001 / 1000] [1] = [150]) :=
  ⟨rfl, rfl, dv_formula [1001 / 1000] [1] 0 (1001 / 1000) 1 rfl rfl⟩

/-- C2 counterexample: the simulate invocation is run through the IPython
shell escape, which discards the exit status; at exit code 1 the cell
does not raise, so no pipeline-halting error is signalled. -/
theorem nonzero_exit_not_raised :
    (1 : Nat) ≠ 0
    ∧ (shellEscape (simulateCmd "qso-input-spectra.fits" "qso-observed-spectra.fits" none)
        1).raised = false :=
  ⟨by decide, rfl⟩

/-- C2 amended: the notebook runs the simulate and fit-redshifts
subprocesses through the IPython shell escape, which discards the exit
status: the invoking cell never raises, whatever the exit code, so a
failed subprocess does not halt the pipeline; the failure surfaces only
through the printed output and through later stages missing their input
file. -/
theorem shellEscape_never_raises :
    ∀ (cmd : List String) (exitCode : Nat),
      (shellEscape cmd exitCode).raised = false
      ∧ (shellEscape cmd exitCode).exitCode = exitCode := by
  intro cmd e
  exact ⟨rfl, rfl⟩

/-- C3 counterexample: the unit label written on the FLUX section is the
ASCII FITS-standard string of the source, which is not the string of the
claim. -/
theorem flux_bunit_ascii :
    (resultFileAt (writeSpectrumFile emptyStore "qso-input-spectra.fits" [1] [[1]])
        "qso-input-spectra.fits").map (fun f => f.hdus.map (fun h => h.hdr.bunit))
      = some ["Angstrom", "10^-17 erg/(s*cm^2*Angstrom)"]
    ∧ ("10^-17 erg/(s*cm^2*Angstrom)" : String) ≠ "10^-17 erg/(s·cm²·Å)" := by
  constructor
  · rfl
  · decide

/-- C3 amended: for every wavelength grid and flux table, writing to a
writable path produces a file holding exactly two labeled sections: a
WAVELENGTH section with the 1D grid and unit label Angstrom, and a FLUX
section with the 2D table and the ASCII unit label
10^-17 erg/(s*cm^2*Angstrom); any existing file at the target path is
overwritten, since the conclusion holds for every prior content of the
store at that path. -/
theorem writeSpectrumFile_sections :
    ∀ (fs : FileStore) (path : String) (wave : List ℚ) (flux : List (List ℚ)),
      fs.writable path = true →
      ∃ fsNew, writeSpectrumFile fs path wave flux = Except.ok fsNew
        ∧ fsNew.files path = some (spectrumFitsFile wave flux) := by
  intro fs path wave flux h
  refine ⟨setFile (setFile fs path ⟨[⟨wavelengthHeader, ImageData.oneD wave⟩]⟩) path
      (spectrumFitsFile wave flux), ?_, ?_⟩
  · simp [writeSpectrumFile, fitsWriteto, fitsAppend, setFile, h, spectrumFitsFile]
  · simp [setFile]

/-- Witness for the amended C3 theorem on the empty writable store. -/
theorem writeSpectrumFile_sections_witness :
    emptyStore.writable "qso-input-spectra.fits" = true
    ∧ ∃ fsNew,
        writeSpectrumFile emptyStore "qso-input-spectra.fits" [1, 2] [[3, 4], [5, 6]]
          = Except.ok fsNew
        ∧ fsNew.files "qso-input-spectra.fits" = some (spectrumFitsFile [1, 2] [[3, 4], [5, 6]]) :=
  ⟨rfl, writeSpectrumFile_sections emptyStore "qso-input-spectra.fits" [1, 2] [[3, 4], [5, 6]] rfl⟩

/-- C4: writing a wavelength grid and flux table and reading the sections
back by their labels yields the original arrays unchanged; values are
modelled exactly, matching the lossless float64 serialization of FITS, so
the identity corresponds to bit-identity of the data. -/
theorem writeSpectrumFile_roundtrip :
    ∀ (fs : FileStore) (path : String) (wave : List ℚ) (flux : List (List ℚ)),
      fs.writable path = true →
      ∃ fsNew, writeSpectrumFile fs path wave flux = Except.ok fsNew
        ∧ (fsNew.files path).bind readWavelength = some (ImageData.oneD wave)
        ∧ (fsNew.files path).bind readFlux = some (ImageData.twoD flux) := by
  intro fs path wave flux h
  refine ⟨setFile (setFile fs path ⟨[⟨wavelengthHeader, ImageData.oneD wave⟩]⟩) path
      (spectrumFitsFile wave flux), ?_, ?_, ?_⟩
  · simp [writeSpectrumFile, fitsWriteto, fitsAppend, setFile, h, spectrumFitsFile]
  · simp [setFile, spectrumFitsFile, readWavelength, sectionNamed, wavelengthHeader, fluxHeader]
  · simp [setFile, spectrumFitsFile, readFlux, sectionNamed, wavelengthHeader, fluxHeader]

/-- Witness for the C4 round-trip theorem on the empty writable store. -/
theorem writeSpectrumFile_roundtrip_witness :
    emptyStore.writable "roundtrip.fits" = true
    ∧ ∃ fsNew,
        writeSpectrumFile emptyStore "roundtrip.fits" [7] [[8, 9]] = Except.ok fsNew
        ∧ (fsNew.files "roundtrip.fits").bind readWavelength = some (ImageData.oneD [7])
        ∧ (fsNew.files "roundtrip.fits").bind readFlux = some (ImageData.twoD [[8, 9]]) :=
  ⟨rfl, writeSpectrumFile_roundtrip emptyStore "roundtrip.fits" [7] [[8, 9]] rfl⟩

/-- C5 counterexample: a wavelength grid of length 1 and a flux table
with 2 columns mismatch, yet the writer succeeds without signalling any
error, because the two arrays go to separate sections and no code relates
their shapes. -/
theorem shape_mismatch_no_error :
    writeOk (writeSpectrumFile emptyStore "mismatch.fits" [1] [[1, 2]]) = true
    ∧ colCount [[(1 : ℚ), 2]] ≠ List.length [(1 : ℚ)] := by
  constructor
  · rfl
  · decide

/-- C5 amended: the writer signals an error exactly when the destination
path is unwritable, and in that case leaves no file; it performs no shape
validation, so a wavelength grid whose length differs from the flux
column count is written without error. -/
theorem writeSpectrumFile_error_iff_unwritable :
    ∀ (fs : FileStore) (path : String) (wave : List ℚ) (flux : List (List ℚ)),
      writeOk (writeSpectrumFile fs path wave flux) = fs.writable path
      ∧ resultFileAt (writeSpectrumFile fs path wave flux) path
          = (if fs.writable path = true then some (spectrumFitsFile wave flux) else none) := by
  intro fs path wave flux
  cases h : fs.writable path
  · simp [writeSpectrumFile, fitsWriteto, h, writeOk, resultFileAt]
  · constructor
    · simp [writeSpectrumFile, fitsWriteto, fitsAppend, setFile, h, writeOk]
    · simp [writeSpectrumFile, fitsWriteto, fitsAppend, setFile, h, resultFileAt,
        spectrumFitsFile]

/-- C6: for every input path, output path and optional observing
condition configuration, the simulation command is exactly the executable
followed by the input flag, the input, the output flag and the output,
and, when configured, by the four observing-condition flags with the
configured values, and nothing else; rendering the argument vector
reproduces the format strings of the source, the spec interface name
simulate denoting the quickspectra executable. -/
theorem simulateCmd_structure :
    ∀ (infile outfile : String) (c : ObsConditions),
      simulateCmd infile outfile none = ["quickspectra", "-i", infile, "-o", outfile]
      ∧ simulateCmd infile outfile (some c)
          = ["quickspectra", "-i", infile, "-o", outfile]
            ++ ["--moonfrac", c.moonfrac, "--moonalt", c.moonalt,
                "--moonsep", c.moonsep, "--airmass", c.airmass]
      ∧ renderCmd (simulateCmd infile outfile none) = simulateCmdStr infile outfile
      ∧ renderCmd (simulateCmd infile outfile (some ⟨"0.9", "70", "20", "1.3"⟩))
          = simulateMoonCmdStr infile outfile := by
  intro i o c
  refine ⟨rfl, rfl, ?_, ?_⟩
  · simp only [simulateCmd, renderCmd, simulateCmdStr, String.append_assoc]
    rfl
  · simp only [simulateCmd, renderCmd, simulateMoonCmdStr, String.append_assoc]
    rfl

/-- C7: the fitting command is wrapped by the srun batch-submission
command exactly when the NERSC_HOST environment variable is present, and
in either case contains the base command rrdesi input zbest output, which
the spec names fit-redshifts; rendering the argument vector reproduces
the format strings of the source. -/
theorem fitCmd_wrapper_iff_nersc :
    ∀ (specfile zfile : String) (nerscHost : Bool),
      fitCmdArgv specfile zfile nerscHost
        = (if nerscHost then srunArgv else [])
          ++ rrdesiArgv specfile zfile
          ++ (if nerscHost then ["--mp", "32"] else [])
      ∧ renderCmd (fitCmdArgv specfile zfile nerscHost) = fitCmdStr specfile zfile nerscHost := by
  intro s z b
  cases b
  · constructor
    · simp [fitCmdArgv]
    · simp only [fitCmdArgv, fitCmdStr, rrdesiArgv, rrdesiCmdStr, renderCmd, Bool.false_eq_true,
        if_false, String.append_assoc]
      rfl
  · constructor
    · simp [fitCmdArgv]
    · simp only [fitCmdArgv, fitCmdStr, rrdesiArgv, rrdesiCmdStr, srunArgv, srunStr, renderCmd,
        if_true, List.append_assoc, List.cons_append, List.nil_append, String.append_assoc]
      rfl

/-- C10: the parallelism flag mp is present in the fitting command
exactly when the NERSC_HOST environment variable is present, and then it
comes with the fixed value 32 after the srun wrapper and the base
command; outside a cluster environment no parallelism argument is
supplied. -/
theorem fitCmd_mp_flag :
    ∀ (specfile zfile : String) (nerscHost : Bool),
      specfile ≠ "--mp" → zfile ≠ "--mp" →
      (("--mp" ∈ fitCmdArgv specfile zfile nerscHost) ↔ nerscHost = true)
      ∧ fitCmdArgv specfile zfile true
          = srunArgv ++ rrdesiArgv specfile zfile ++ ["--mp", "32"] := by
  intro s z b hs hz
  constructor
  · cases b
    · simp [fitCmdArgv, rrdesiArgv, Ne.symm hs, Ne.symm hz]
    · simp [fitCmdArgv, srunArgv, rrdesiArgv]
  · simp [fitCmdArgv]

/-- Witness for the C10 theorem at the notebook file names. -/
theorem fitCmd_mp_flag_witness :
    ("qso-observed-spectra.fits" : String) ≠ "--mp"
    ∧ ("qso-zbest.fits" : String) ≠ "--mp"
    ∧ ((("--mp" ∈ fitCmdArgv "qso-observed-spectra.fits" "qso-zbest.fits" false) ↔ false = true)
        ∧ fitCmdArgv "qso-observed-spectra.fits" "qso-zbest.fits" true
            = srunArgv ++ rrdesiArgv "qso-observed-spectra.fits" "qso-zbest.fits"
              ++ ["--mp", "32"]) :=
  ⟨by decide, by decide,
    fitCmd_mp_flag "qso-observed-spectra.fits" "qso-zbest.fits" false (by decide) (by decide)⟩

/-- C8: for every object class and positive count, the spec-modelled
generator succeeds and returns a flux table with exactly count rows and
the two metadata tables each with count rows whose identifier columns are
identical and in the same order. -/
theorem make_templates_rowcounts :
    ∀ (c : ObjectClass) (n : Nat) (rc : RangeConstraints), 0 < n →
      ∃ out, make_templates c n rc = Except.ok out
        ∧ out.flux.length = n ∧ out.meta.length = n ∧ out.objmeta.length = n
        ∧ out.meta.map MetaRow.targetid = out.objmeta.map ObjMetaRow.targetid := by
  intro c n rc h
  have hn : n ≠ 0 := Nat.pos_iff_ne_zero.mp h
  unfold make_templates
  rw [if_neg hn]
  refine ⟨_, rfl, ?_, ?_, ?_, ?_⟩
  · rw [List.length_map, List.length_range]
  · rw [List.length_map, List.length_range]
  · rw [List.length_map, List.length_range]
  · simp only [List.map_map]
    rfl

/-- Witness for the C8 theorem at class QSO, count 3 and no range
constraints. -/
theorem make_templates_rowcounts_witness :
    0 < 3
    ∧ ∃ out, make_templates ObjectClass.QSO 3 ⟨none, none⟩ = Except.ok out
        ∧ out.flux.length = 3 ∧ out.meta.length = 3 ∧ out.objmeta.length = 3
        ∧ out.meta.map MetaRow.targetid = out.objmeta.map ObjMetaRow.targetid :=
  ⟨by decide, make_templates_rowcounts ObjectClass.QSO 3 ⟨none, none⟩ (by decide)⟩

/-- C9: the spec-modelled generator is a pure function of the object
class, the count and the optional range constraints: an invocation leaves
the ambient state unchanged, and its result does not depend on the
ambient state, so two invocations with identical arguments return
identical outputs. -/
theorem make_templates_pure :
    ∀ (c : ObjectClass) (n : Nat) (rc : RangeConstraints) (w1 w2 : World),
      (make_templates_invoke c n rc w1).2 = w1
      ∧ (make_templates_invoke c n rc w1).1 = (make_templates_invoke c n rc w2).1 := by
  intro c n rc w1 w2
  exact ⟨rfl, rfl⟩

end DesiSim
